import Mathlib

/-!
Verification of `combineBottomImagesWithPoleRemoval`
(src/surround360_render/source/render/PoleRemoval.cpp).

The function fuses the two bottom-facing camera images of a Surround360 rig
into one pole-free image.  We shallowly embed the function: images are
`Img` records with a pixel function, the float arithmetic of the per-pixel
blend is carried out exactly in `ℚ` (the C++ `float -> uchar` conversion in
the `Vec4b` constructor truncates toward zero, modelled by `Int.floor` on a
non-negative value), and the external collaborators (image file reads, the
optical-flow engine, the color-adjustment model, the cubic sampler of
OpenCV `remap`) are parameters collected in an `Env` record.  The function
body is embedded as `combineBottomImagesWithPoleRemoval`, which also returns the ordered trace of
its observable steps (`Event`s), so that claims about *when* an effect
happens relative to another are statements about that trace.
-/

namespace PoleRemoval

/-- A BGRA pixel, one byte per channel, as in `cv::Vec4b` (channel order
blue, green, red, alpha). -/
structure Pix where
  b : Nat
  g : Nat
  r : Nat
  a : Nat
deriving DecidableEq, Repr

/-- A raster image: dimensions plus a pixel function indexed `(y, x)` as in
`Mat::at<Vec4b>(y, x)`. -/
structure Img where
  rows : Nat
  cols : Nat
  px : Nat → Nat → Pix

/-- A dense motion field: per-pixel float displacement pairs, indexed
`(y, x)` as in `flow.at<Point2f>(y, x)`; `dx` is the `Point2f.x`
component, `dy` the `Point2f.y` component. -/
structure Flow where
  rows : Nat
  cols : Nat
  dx : Nat → Nat → ℚ
  dy : Nat → Nat → ℚ

/-- The fields of `CameraMetadata` that `combineBottomImagesWithPoleRemoval`
reads. -/
structure CameraMetadata where
  cameraId : String
  usablePixelsRadius : Nat
  flip180 : Bool

/-- `vector<vector<float>>`, the color adjustment model (opaque here). -/
def ColorModel : Type := List (List ℚ)

/-- Interpolation-mode flag passed to `remap` (the source passes
`CV_INTER_CUBIC`). -/
inductive Interp where
  | nearest
  | linear
  | cubic
deriving DecidableEq, Repr

/-- Fully transparent black: OpenCV's default `borderValue` (`Scalar()`)
for `remap` with `BORDER_CONSTANT`. -/
def transparentPix : Pix := ⟨0, 0, 0, 0⟩

/-! ## Pixel-level operations -/

/-- `cvtColor(img, img, CV_BGR2BGRA)`: the added alpha channel is fully
opaque. -/
def cvtToBGRA (img : Img) : Img :=
  { img with px := fun y x => { img.px y x with a := 255 } }

/-- Modelled from the spec: `circleAlphaCut` (CvUtil, not in src/) zeroes
the alpha channel outside the circular usable-radius region centered on
the optical axis (image center); color channels pass through. -/
def circleAlphaCut (img : Img) (radius : Nat) : Img :=
  { img with px := fun y x =>
      let p := img.px y x
      if ((x : ℤ) - img.cols / 2) ^ 2 + ((y : ℤ) - img.rows / 2) ^ 2 ≤ (radius : ℤ) ^ 2
      then p else { p with a := 0 } }

/-- Modelled from the spec: `cutRedMaskOutOfAlphaChannel` (CvUtil, not in
src/) zeroes the alpha channel wherever the pole mask marks exclusion
(a pixel with nonzero red channel); color channels pass through. -/
def cutRedMaskOutOfAlphaChannel (img : Img) (mask : Img) : Img :=
  { img with px := fun y x =>
      let p := img.px y x
      if (mask.px y x).r = 0 then p else { p with a := 0 } }

/-- Alpha value at integer coordinates, clamped to the image rectangle
(helper for the feathering model). -/
def alphaClamped (img : Img) (y x : ℤ) : Nat :=
  (img.px (min (img.rows - 1) y.toNat) (min (img.cols - 1) x.toNat)).a

/-- Box average of the alpha channel over a `(2k+1) × (2k+1)` window
(helper for the feathering model). -/
def featherAvg (img : Img) (k y x : Nat) : Nat :=
  let offs := (List.range (2 * k + 1)).map (fun i => (i : ℤ) - (k : ℤ))
  let vals := offs.flatMap (fun dy => offs.map (fun dx =>
    alphaClamped img ((y : ℤ) + dy) ((x : ℤ) + dx)))
  vals.sum / vals.length

/-- Modelled from the spec: `featherAlphaChannel` (CvUtil, not in src/)
smooths only the alpha channel across a band of `featherSize` pixels so
mask edges transition gradually; color channels pass through. -/
def featherAlphaChannel (img : Img) (featherSize : Nat) : Img :=
  { img with px := fun y x =>
      { img.px y x with a := featherAvg img featherSize y x } }

/-- `cv::flip(img, img, -1)`: flip about both axes, i.e. a 180° rotation. -/
def flipBothAxes (img : Img) : Img :=
  { img with px := fun y x => img.px (img.rows - 1 - y) (img.cols - 1 - x) }

/-- The mask-building sequence of lines 66–77: add a fully opaque alpha
channel, cut it to the usable-radius circle, cut out the pole mask, and
feather it. -/
def buildMasked (img : Img) (radius : Nat) (mask : Img) (featherSize : Nat) : Img :=
  featherAlphaChannel
    (cutRedMaskOutOfAlphaChannel (circleAlphaCut (cvtToBGRA img) radius) mask)
    featherSize

/-- The per-pixel blend of lines 151–170.  `alpha` and `alpha2` are the
normalized alphas (`byte / 255.0f`, exact in `ℚ`); when the primary is not
fully opaque and the adjusted secondary has some data, the color channels
become `a1·c1 + (1−a1)·c2` truncated to a byte (the `Vec4b` constructor's
`float → uchar` conversion) and the alpha is forced to 255; otherwise the
primary pixel is returned unchanged. -/
def blendPixel (p q : Pix) : Pix :=
  let alpha : ℚ := (p.a : ℚ) / 255
  let alpha2 : ℚ := (q.a : ℚ) / 255
  if alpha < 1 ∧ 0 < alpha2 then
    let a1 := alpha
    let a2 := 1 - alpha
    { b := (⌊a1 * (p.b : ℚ) + a2 * (q.b : ℚ)⌋).toNat
      g := (⌊a1 * (p.g : ℚ) + a2 * (q.g : ℚ)⌋).toNat
      r := (⌊a1 * (p.r : ℚ) + a2 * (q.r : ℚ)⌋).toNat
      a := 255 }
  else p

/-- The compositing loop of lines 149–172: `blendPixel` applied at every
pixel of the primary image's rectangle. -/
def blendImages (primary secondary : Img) : Img :=
  { primary with px := fun y x =>
      if y < primary.rows ∧ x < primary.cols
      then blendPixel (primary.px y x) (secondary.px y x)
      else primary.px y x }

/-- The warp-map construction of lines 121–126:
`warpMat.at(y, x) = Point2f(x, y) + flow.at(y, x)`. -/
def buildWarpMap (flow : Flow) : Nat → Nat → ℚ × ℚ :=
  fun y x => ((x : ℚ) + flow.dx y x, (y : ℚ) + flow.dy y x)

/-- Modelled from the spec: OpenCV `remap` (not repository code) with
`BORDER_CONSTANT`: each destination pixel whose map coordinate lies inside
the source rectangle is produced by the interpolating sampler at that
coordinate; a coordinate outside the bounds yields the fixed border
constant — it is never wrapped around nor clamped to the edge. -/
def remapModel (sample : Img → ℚ × ℚ → Pix) (border : Pix) (src : Img)
    (rows cols : Nat) (map : Nat → Nat → ℚ × ℚ) : Img :=
  { rows := rows
    cols := cols
    px := fun y x =>
      let c := map y x
      if 0 ≤ c.1 ∧ c.1 ≤ (src.cols : ℚ) - 1 ∧ 0 ≤ c.2 ∧ c.2 ≤ (src.rows : ℚ) - 1
      then sample src c
      else border }

/-! ## Dimension lemmas: none of the pixel operations changes the raster
dimensions. -/

@[simp] theorem cvtToBGRA_rows (i : Img) : (cvtToBGRA i).rows = i.rows := rfl
@[simp] theorem cvtToBGRA_cols (i : Img) : (cvtToBGRA i).cols = i.cols := rfl
@[simp] theorem circleAlphaCut_rows (i : Img) (r : Nat) : (circleAlphaCut i r).rows = i.rows := rfl
@[simp] theorem circleAlphaCut_cols (i : Img) (r : Nat) : (circleAlphaCut i r).cols = i.cols := rfl
@[simp] theorem cutRedMask_rows (i m : Img) : (cutRedMaskOutOfAlphaChannel i m).rows = i.rows := rfl
@[simp] theorem cutRedMask_cols (i m : Img) : (cutRedMaskOutOfAlphaChannel i m).cols = i.cols := rfl
@[simp] theorem featherAlphaChannel_rows (i : Img) (k : Nat) : (featherAlphaChannel i k).rows = i.rows := rfl
@[simp] theorem featherAlphaChannel_cols (i : Img) (k : Nat) : (featherAlphaChannel i k).cols = i.cols := rfl
@[simp] theorem flipBothAxes_rows (i : Img) : (flipBothAxes i).rows = i.rows := rfl
@[simp] theorem flipBothAxes_cols (i : Img) : (flipBothAxes i).cols = i.cols := rfl
@[simp] theorem buildMasked_rows (i : Img) (r : Nat) (m : Img) (k : Nat) :
    (buildMasked i r m k).rows = i.rows := rfl
@[simp] theorem buildMasked_cols (i : Img) (r : Nat) (m : Img) (k : Nat) :
    (buildMasked i r m k).cols = i.cols := rfl
@[simp] theorem blendImages_rows (p s : Img) : (blendImages p s).rows = p.rows := rfl
@[simp] theorem blendImages_cols (p s : Img) : (blendImages p s).cols = p.cols := rfl

/-! ## The embedded function

`combineBottomImagesWithPoleRemoval` embeds the body of `combineBottomImagesWithPoleRemoval`
(lines 45–181).  External collaborators live in `Env`; a failing
`imreadExceptionOnFail` / `readFlowFromFile` is `none` (the C++ call
throws).  Besides the `Except` outcome, `combineBottomImagesWithPoleRemoval` returns the ordered
list of observable steps performed before it returned, so that ordering
claims (which step happened before which) are statements about that
trace.  An empty `cv::Mat()` prior (zero rows and columns) is modelled as
`Option.none`. -/

/-- One observable step of `combineBottomImagesWithPoleRemoval`, in source
order.  Numeric tags `1` / `2` name the primary / secondary image. -/
inductive Event where
  | readImage (path : String)
  | readMask (path : String)
  | cvtToBGRA (which : Nat)
  | circleCut (which : Nat)
  | maskCut (which : Nat)
  | feather (which : Nat)
  | flip180 (which : Nat)
  | readPrevFlow (path : String)
  | readPrevImage (path : String)
  | computeFlow (seeded : Bool)
  | saveFlow (path : String)
  | writeFlowImage (path : String)
  | writeDebug (path : String)
  | writeDebugCombined (path : String)
  | buildWarp
  | remap
  | buildColorModel
  | applyColorModel
  | blendLoop
deriving DecidableEq, Repr

/-- What the fusion call produces (and the intermediates the claims talk
about): the two working images fed to the engine, the priors passed to
it, the flow, the warped and color-adjusted secondary, and the combined
image assigned to the `bottomImage` output parameter. -/
structure Result where
  workingPrimary : Img
  workingSecondary : Img
  priorFlow : Option Flow
  priorImage : Option Img
  priorImage2 : Option Img
  flow : Flow
  warped : Img
  adjusted : Img
  combined : Img

/-- External collaborators of the function: `imreadExceptionOnFail`
(`none` = the call throws), `readFlowFromFile`, the optical-flow engine
(`computeOpticalFlow`), the interpolating sampler used by `remap`, and
the color-adjustment model fit/apply. -/
structure Env where
  readImage : String → Option Img
  readFlow : String → Option Flow
  computeFlow : Img → Img → Option Flow → Option Img → Option Img → Flow
  sampler : Interp → Img → ℚ × ℚ → Pix
  buildColorModel : Img → Img → ColorModel
  applyColorModel : Img → ColorModel → Img

/-- The function's parameters; `cam1` / `cam2` are the records returned by
`getBottomCamModel` / `getBottomCamModel2` (external selectors). -/
structure Args where
  imagesDir : String
  poleMaskDir : String
  prevFrameDataDir : String
  outputDataDir : String
  saveDebugImages : Bool
  saveFlowDataForNextFrame : Bool
  flowAlgName : String
  alphaFeatherSize : Nat
  cam1 : CameraMetadata
  cam2 : CameraMetadata

/-! File paths built by the function. -/

def imgPath1 (a : Args) : String := a.imagesDir ++ "/" ++ a.cam1.cameraId ++ ".png"
def imgPath2 (a : Args) : String := a.imagesDir ++ "/" ++ a.cam2.cameraId ++ ".png"
def maskPath1 (a : Args) : String := a.poleMaskDir ++ "/" ++ a.cam1.cameraId ++ ".png"
def maskPath2 (a : Args) : String := a.poleMaskDir ++ "/" ++ a.cam2.cameraId ++ ".png"
def prevFlowPath (a : Args) : String := a.prevFrameDataDir ++ "/flow/flow_bottom_secondary.bin"
def prevImgPath1 (a : Args) : String := a.prevFrameDataDir ++ "/flow_images/bottomImage.png"
def prevImgPath2 (a : Args) : String := a.prevFrameDataDir ++ "/flow_images/bottomImage2.png"
def outFlowPath (a : Args) : String := a.outputDataDir ++ "/flow/flow_bottom_secondary.bin"
def outImgPath1 (a : Args) : String := a.outputDataDir ++ "/flow_images/bottomImage.png"
def outImgPath2 (a : Args) : String := a.outputDataDir ++ "/flow_images/bottomImage2.png"
def debugBottomPath (a : Args) : String := a.outputDataDir ++ "/bottomImage.png"
def debugBottom2Path (a : Args) : String := a.outputDataDir ++ "/bottomImage2.png"
def debugWarpPath (a : Args) : String := a.outputDataDir ++ "/bottomWarp2.png"
def debugCombinedPath (a : Args) : String := a.outputDataDir ++ "/_bottomCombined.png"

/-- The values computed from line 119 on (warp map, `remap` with
`CV_INTER_CUBIC` and `BORDER_CONSTANT`, color model fit and apply, the
per-pixel blend, and the final recut + refeather of lines 173–176). -/
def fullResult (env : Env) (a : Args) (b1 b2 : Img)
    (pf : Option Flow) (pi1 pi2 : Option Img) : Result :=
  let flow := env.computeFlow b1 b2 pf pi1 pi2
  let warped := remapModel (env.sampler Interp.cubic) transparentPix b2
    b1.rows b1.cols (buildWarpMap flow)
  let adjusted := env.applyColorModel warped (env.buildColorModel b1 warped)
  { workingPrimary := b1
    workingSecondary := b2
    priorFlow := pf
    priorImage := pi1
    priorImage2 := pi2
    flow := flow
    warped := warped
    adjusted := adjusted
    combined := featherAlphaChannel
      (circleAlphaCut (blendImages b1 adjusted) a.cam1.usablePixelsRadius)
      a.alphaFeatherSize }

/-- Lines 100–181: engine call, optional flow/image serialization for the
next frame, the size assertion, warp, optional debug snapshots, color
matching, blend, recut + refeather, optional final snapshot.  `tr` is the
trace accumulated so far; `b1` / `b2` are the working images. -/
def runAfterPriors (env : Env) (a : Args) (b1 b2 : Img) (tr : List Event)
    (pf : Option Flow) (pi1 pi2 : Option Img) :
    List Event × Except String Result :=
  let tr2 := tr ++ [Event.computeFlow pf.isSome]
    ++ (if a.saveFlowDataForNextFrame then
          [Event.saveFlow (outFlowPath a),
           Event.writeFlowImage (outImgPath1 a),
           Event.writeFlowImage (outImgPath2 a)]
        else [])
  if b1.rows = b2.rows ∧ b1.cols = b2.cols then
    (tr2 ++ [Event.buildWarp, Event.remap]
      ++ (if a.saveDebugImages then
            [Event.writeDebug (debugBottomPath a),
             Event.writeDebug (debugBottom2Path a),
             Event.writeDebug (debugWarpPath a)]
          else [])
      ++ [Event.buildColorModel, Event.applyColorModel, Event.blendLoop,
          Event.circleCut 1, Event.feather 1]
      ++ (if a.saveDebugImages then [Event.writeDebugCombined (debugCombinedPath a)] else []),
     Except.ok (fullResult env a b1 b2 pf pi1 pi2))
  else
    (tr2, Except.error ("assertion failed: bottomImage.size() == bottomImage2.size()"))

/-- The trace of the mask-building stage (lines 66–82): alpha channels,
circle cuts, pole-mask cuts, feathering, then the conditional 180° flip
of the secondary. -/
def maskTrace (a : Args) : List Event :=
  [Event.cvtToBGRA 1, Event.cvtToBGRA 2, Event.circleCut 1, Event.circleCut 2,
   Event.maskCut 1, Event.maskCut 2, Event.feather 1, Event.feather 2]
  ++ (if a.cam2.flip180 then [Event.flip180 2] else [])

/-- The working primary image fed to the engine (lines 66–77 applied to the
primary). -/
def workingPrimaryOf (a : Args) (img1 mask1 : Img) : Img :=
  buildMasked img1 a.cam1.usablePixelsRadius mask1 a.alphaFeatherSize

/-- The working secondary image fed to the engine (lines 67–82 applied to
the secondary: mask build, then the 180° flip when `cam2.flip180`). -/
def workingSecondaryOf (a : Args) (img2 mask2 : Img) : Img :=
  let m := buildMasked img2 a.cam2.usablePixelsRadius mask2 a.alphaFeatherSize
  if a.cam2.flip180 then flipBothAxes m else m

/-- The body of `combineBottomImagesWithPoleRemoval` (lines 45–181): read
the two bottom images and the two pole masks (throwing on failure), check
the masks for zero extent, build both working images, flip the secondary
when marked, read the previous-frame priors unless the directory is the
`"NONE"` sentinel (throwing when a read fails), then continue in
`runAfterPriors`. -/
def combineBottomImagesWithPoleRemoval (env : Env) (a : Args) : List Event × Except String Result :=
  match env.readImage (imgPath1 a) with
  | none => ([Event.readImage (imgPath1 a)], Except.error ("failed to load image"))
  | some img1 =>
  match env.readImage (imgPath2 a) with
  | none => ([Event.readImage (imgPath1 a), Event.readImage (imgPath2 a)],
             Except.error ("failed to load image"))
  | some img2 =>
  match env.readImage (maskPath1 a) with
  | none => ([Event.readImage (imgPath1 a), Event.readImage (imgPath2 a),
              Event.readMask (maskPath1 a)],
             Except.error ("failed to load image"))
  | some mask1 =>
  match env.readImage (maskPath2 a) with
  | none => ([Event.readImage (imgPath1 a), Event.readImage (imgPath2 a),
              Event.readMask (maskPath1 a), Event.readMask (maskPath2 a)],
             Except.error ("failed to load image"))
  | some mask2 =>
  let tr0 : List Event :=
    [Event.readImage (imgPath1 a), Event.readImage (imgPath2 a),
     Event.readMask (maskPath1 a), Event.readMask (maskPath2 a)]
  if mask1.rows = 0 ∨ mask1.cols = 0 ∨ mask2.rows = 0 ∨ mask2.cols = 0 then
    (tr0, Except.error ("missing or bad pole mask:" ++ maskPath1 a ++ "," ++ maskPath2 a))
  else
    let b1 := workingPrimaryOf a img1 mask1
    let b2 := workingSecondaryOf a img2 mask2
    let tr1 := tr0 ++ maskTrace a
    if a.prevFrameDataDir = "NONE" then
      runAfterPriors env a b1 b2 tr1 none none none
    else
      match env.readFlow (prevFlowPath a) with
      | none => (tr1 ++ [Event.readPrevFlow (prevFlowPath a)],
                 Except.error ("failed to read flow file"))
      | some pf =>
      match env.readImage (prevImgPath1 a) with
      | none => (tr1 ++ [Event.readPrevFlow (prevFlowPath a),
                         Event.readPrevImage (prevImgPath1 a)],
                 Except.error ("failed to load image"))
      | some pi1 =>
      match env.readImage (prevImgPath2 a) with
      | none => (tr1 ++ [Event.readPrevFlow (prevFlowPath a),
                         Event.readPrevImage (prevImgPath1 a),
                         Event.readPrevImage (prevImgPath2 a)],
                 Except.error ("failed to load image"))
      | some pi2 =>
      runAfterPriors env a b1 b2
        (tr1 ++ [Event.readPrevFlow (prevFlowPath a),
                 Event.readPrevImage (prevImgPath1 a),
                 Event.readPrevImage (prevImgPath2 a)])
        (some pf) (some pi1) (some pi2)

/-! ## Trace helpers -/

/-- Steps that read or compute on pixel data (everything except file reads
and persisted writes). -/
def Event.isPixelOp : Event → Bool
  | Event.cvtToBGRA _ => true
  | Event.circleCut _ => true
  | Event.maskCut _ => true
  | Event.feather _ => true
  | Event.flip180 _ => true
  | Event.computeFlow _ => true
  | Event.buildWarp => true
  | Event.remap => true
  | Event.buildColorModel => true
  | Event.applyColorModel => true
  | Event.blendLoop => true
  | _ => false

/-- Persisted side-effect writes (temporal-seed and debug files). -/
def Event.isWrite : Event → Bool
  | Event.saveFlow _ => true
  | Event.writeFlowImage _ => true
  | Event.writeDebug _ => true
  | Event.writeDebugCombined _ => true
  | _ => false

/-- Temporal-seed writes (the flow file and the two working images). -/
def Event.isSeedWrite : Event → Bool
  | Event.saveFlow _ => true
  | Event.writeFlowImage _ => true
  | _ => false

/-- The debug snapshots of the two working images and the warped image
(lines 137–141). -/
def Event.isDebugWrite : Event → Bool
  | Event.writeDebug _ => true
  | _ => false

/-- The debug snapshot of the final combined image (line 179). -/
def Event.isFinalDebugWrite : Event → Bool
  | Event.writeDebugCombined _ => true
  | _ => false

/-- The engine invocation. -/
def Event.isEngineCall : Event → Bool
  | Event.computeFlow _ => true
  | _ => false

/-- The per-pixel blend loop. -/
def Event.isBlendStep : Event → Bool
  | Event.blendLoop => true
  | _ => false

/-- The feathering of the secondary working image. -/
def Event.isFeatherSecondary : Event → Bool
  | Event.feather 2 => true
  | _ => false

/-- The 180° flip of the secondary working image. -/
def Event.isFlipSecondary : Event → Bool
  | Event.flip180 2 => true
  | _ => false

/-- The warp-map construction. -/
def Event.isWarpStep : Event → Bool
  | Event.buildWarp => true
  | Event.remap => true
  | _ => false

/-- The color-model fit. -/
def Event.isColorFit : Event → Bool
  | Event.buildColorModel => true
  | _ => false

/-- `allBefore p q tr` holds when every `p`-event of `tr` occurs strictly
before every `q`-event: whenever a `q`-event appears, no `p`-event appears
after it. -/
def allBefore (p q : Event → Bool) : List Event → Bool
  | [] => true
  | e :: rest => ((!q e) || rest.all (fun e2 => !p e2)) && allBefore p q rest

/-- `true` on a failed (`throw`ing) outcome. -/
def failed (r : Except String Result) : Bool :=
  match r with
  | Except.error _ => true
  | Except.ok _ => false

/-- The four initial file reads (lines 51–56). -/
def readTrace (a : Args) : List Event :=
  [Event.readImage (imgPath1 a), Event.readImage (imgPath2 a),
   Event.readMask (maskPath1 a), Event.readMask (maskPath2 a)]

/-- The trace of lines 100–180 on the success path. -/
def postTrace (a : Args) (seeded : Bool) : List Event :=
  [Event.computeFlow seeded]
  ++ (if a.saveFlowDataForNextFrame then
        [Event.saveFlow (outFlowPath a),
         Event.writeFlowImage (outImgPath1 a),
         Event.writeFlowImage (outImgPath2 a)]
      else [])
  ++ [Event.buildWarp, Event.remap]
  ++ (if a.saveDebugImages then
        [Event.writeDebug (debugBottomPath a),
         Event.writeDebug (debugBottom2Path a),
         Event.writeDebug (debugWarpPath a)]
      else [])
  ++ [Event.buildColorModel, Event.applyColorModel, Event.blendLoop,
      Event.circleCut 1, Event.feather 1]
  ++ (if a.saveDebugImages then [Event.writeDebugCombined (debugCombinedPath a)] else [])

/-- The whole trace of a successful run. -/
def successTrace (a : Args) (seeded : Bool) : List Event :=
  readTrace a ++ maskTrace a
  ++ (if seeded then
        [Event.readPrevFlow (prevFlowPath a),
         Event.readPrevImage (prevImgPath1 a),
         Event.readPrevImage (prevImgPath2 a)]
      else [])
  ++ postTrace a seeded

@[simp] theorem workingPrimaryOf_rows (a : Args) (i m : Img) :
    (workingPrimaryOf a i m).rows = i.rows := rfl
@[simp] theorem workingPrimaryOf_cols (a : Args) (i m : Img) :
    (workingPrimaryOf a i m).cols = i.cols := rfl
@[simp] theorem workingSecondaryOf_rows (a : Args) (i m : Img) :
    (workingSecondaryOf a i m).rows = i.rows := by
  unfold workingSecondaryOf
  split <;> rfl
@[simp] theorem workingSecondaryOf_cols (a : Args) (i m : Img) :
    (workingSecondaryOf a i m).cols = i.cols := by
  unfold workingSecondaryOf
  split <;> rfl

/-- Inversion of a successful run: every `Except.ok` outcome of
`combineBottomImagesWithPoleRemoval` arises from successful reads, nonzero mask extents, matching
dimensions, priors fixed by the `"NONE"` sentinel test, and the result and
trace have the canonical shapes. -/
theorem combine_ok_inv (env : Env) (a : Args) (tr : List Event) (res : Result)
    (hrun : combineBottomImagesWithPoleRemoval env a = (tr, Except.ok res)) :
    ∃ img1 img2 mask1 mask2 pf pi1 pi2,
      env.readImage (imgPath1 a) = some img1 ∧
      env.readImage (imgPath2 a) = some img2 ∧
      env.readImage (maskPath1 a) = some mask1 ∧
      env.readImage (maskPath2 a) = some mask2 ∧
      ¬(mask1.rows = 0 ∨ mask1.cols = 0 ∨ mask2.rows = 0 ∨ mask2.cols = 0) ∧
      img1.rows = img2.rows ∧ img1.cols = img2.cols ∧
      ((a.prevFrameDataDir = "NONE" ∧ pf = none ∧ pi1 = none ∧ pi2 = none) ∨
       (a.prevFrameDataDir ≠ "NONE" ∧
         env.readFlow (prevFlowPath a) = pf ∧ pf.isSome = true ∧
         env.readImage (prevImgPath1 a) = pi1 ∧ pi1.isSome = true ∧
         env.readImage (prevImgPath2 a) = pi2 ∧ pi2.isSome = true)) ∧
      res = fullResult env a (workingPrimaryOf a img1 mask1)
              (workingSecondaryOf a img2 mask2) pf pi1 pi2 ∧
      tr = successTrace a pf.isSome := by
  unfold combineBottomImagesWithPoleRemoval at hrun
  split at hrun
  · simp at hrun
  rename_i img1 h1
  split at hrun
  · simp at hrun
  rename_i img2 h2
  split at hrun
  · simp at hrun
  rename_i mask1 h3
  split at hrun
  · simp at hrun
  rename_i mask2 h4
  split at hrun
  · simp at hrun
  rename_i hm
  refine ⟨img1, img2, mask1, mask2, ?_⟩
  split at hrun
  · rename_i hN
    unfold runAfterPriors at hrun
    by_cases hsz : (workingPrimaryOf a img1 mask1).rows = (workingSecondaryOf a img2 mask2).rows ∧
        (workingPrimaryOf a img1 mask1).cols = (workingSecondaryOf a img2 mask2).cols
    · rw [if_pos hsz] at hrun
      simp only [Prod.mk.injEq, Except.ok.injEq] at hrun
      refine ⟨none, none, none, h1, h2, h3, h4, hm, ?_, ?_, Or.inl ⟨hN, rfl, rfl, rfl⟩,
        hrun.2.symm, ?_⟩
      · simpa using hsz.1
      · simpa using hsz.2
      · rw [← hrun.1]
        simp [successTrace, readTrace, postTrace, hN, List.append_assoc]
    · rw [if_neg hsz] at hrun
      simp at hrun
  · rename_i hN
    split at hrun
    · simp at hrun
    rename_i pf hf
    split at hrun
    · simp at hrun
    rename_i pi1 hi1
    split at hrun
    · simp at hrun
    rename_i pi2 hi2
    unfold runAfterPriors at hrun
    by_cases hsz : (workingPrimaryOf a img1 mask1).rows = (workingSecondaryOf a img2 mask2).rows ∧
        (workingPrimaryOf a img1 mask1).cols = (workingSecondaryOf a img2 mask2).cols
    · rw [if_pos hsz] at hrun
      simp only [Prod.mk.injEq, Except.ok.injEq] at hrun
      refine ⟨some pf, some pi1, some pi2, h1, h2, h3, h4, hm, ?_, ?_,
        Or.inr ⟨hN, hf, rfl, hi1, rfl, hi2, rfl⟩, hrun.2.symm, ?_⟩
      · simpa using hsz.1
      · simpa using hsz.2
      · rw [← hrun.1]
        simp [successTrace, readTrace, postTrace, hN, List.append_assoc]
    · rw [if_neg hsz] at hrun
      simp at hrun

/-! ## Projections of `fullResult` -/

@[simp] theorem fullResult_workingPrimary (env : Env) (a : Args) (b1 b2 : Img)
    (pf : Option Flow) (pi1 pi2 : Option Img) :
    (fullResult env a b1 b2 pf pi1 pi2).workingPrimary = b1 := rfl

@[simp] theorem fullResult_workingSecondary (env : Env) (a : Args) (b1 b2 : Img)
    (pf : Option Flow) (pi1 pi2 : Option Img) :
    (fullResult env a b1 b2 pf pi1 pi2).workingSecondary = b2 := rfl

@[simp] theorem fullResult_priorFlow (env : Env) (a : Args) (b1 b2 : Img)
    (pf : Option Flow) (pi1 pi2 : Option Img) :
    (fullResult env a b1 b2 pf pi1 pi2).priorFlow = pf := rfl

@[simp] theorem fullResult_priorImage (env : Env) (a : Args) (b1 b2 : Img)
    (pf : Option Flow) (pi1 pi2 : Option Img) :
    (fullResult env a b1 b2 pf pi1 pi2).priorImage = pi1 := rfl

@[simp] theorem fullResult_priorImage2 (env : Env) (a : Args) (b1 b2 : Img)
    (pf : Option Flow) (pi1 pi2 : Option Img) :
    (fullResult env a b1 b2 pf pi1 pi2).priorImage2 = pi2 := rfl

@[simp] theorem fullResult_flow (env : Env) (a : Args) (b1 b2 : Img)
    (pf : Option Flow) (pi1 pi2 : Option Img) :
    (fullResult env a b1 b2 pf pi1 pi2).flow = env.computeFlow b1 b2 pf pi1 pi2 := rfl

@[simp] theorem fullResult_warped (env : Env) (a : Args) (b1 b2 : Img)
    (pf : Option Flow) (pi1 pi2 : Option Img) :
    (fullResult env a b1 b2 pf pi1 pi2).warped =
      remapModel (env.sampler Interp.cubic) transparentPix b2 b1.rows b1.cols
        (buildWarpMap (env.computeFlow b1 b2 pf pi1 pi2)) := rfl

@[simp] theorem fullResult_adjusted (env : Env) (a : Args) (b1 b2 : Img)
    (pf : Option Flow) (pi1 pi2 : Option Img) :
    (fullResult env a b1 b2 pf pi1 pi2).adjusted =
      env.applyColorModel (fullResult env a b1 b2 pf pi1 pi2).warped
        (env.buildColorModel b1 (fullResult env a b1 b2 pf pi1 pi2).warped) := rfl

@[simp] theorem fullResult_combined (env : Env) (a : Args) (b1 b2 : Img)
    (pf : Option Flow) (pi1 pi2 : Option Img) :
    (fullResult env a b1 b2 pf pi1 pi2).combined =
      featherAlphaChannel
        (circleAlphaCut (blendImages b1 (fullResult env a b1 b2 pf pi1 pi2).adjusted)
          a.cam1.usablePixelsRadius)
        a.alphaFeatherSize := rfl

/-! ## Concrete instances used by witnesses and counterexamples -/

/-- A uniform image: every channel of every pixel holds `v`. -/
def constImg (r c v : Nat) : Img := { rows := r, cols := c, px := fun _ _ => ⟨v, v, v, v⟩ }

/-- A uniform motion field with displacement `(d, d)` everywhere. -/
def flowConst (r c : Nat) (d : ℚ) : Flow :=
  { rows := r, cols := c, dx := fun _ _ => d, dy := fun _ _ => d }

def defaultImg : Img := constImg 0 0 0

def defaultFlow : Flow := flowConst 0 0 0

def defaultResult : Result :=
  { workingPrimary := defaultImg, workingSecondary := defaultImg,
    priorFlow := none, priorImage := none, priorImage2 := none,
    flow := defaultFlow, warped := defaultImg, adjusted := defaultImg,
    combined := defaultImg }

/-- The result of a run known to succeed (`defaultResult` on a failed run). -/
def okResultOf (env : Env) (a : Args) : Result :=
  match (combineBottomImagesWithPoleRemoval env a).2 with
  | Except.ok r => r
  | Except.error _ => defaultResult

/-- The trace of a run. -/
def traceOf (env : Env) (a : Args) : List Event := (combineBottomImagesWithPoleRemoval env a).1

def camA : CameraMetadata := { cameraId := "a", usablePixelsRadius := 10, flip180 := false }
def camB : CameraMetadata := { cameraId := "b", usablePixelsRadius := 10, flip180 := false }
def camBflip : CameraMetadata := { cameraId := "b", usablePixelsRadius := 10, flip180 := true }

def argsBase : Args :=
  { imagesDir := "i", poleMaskDir := "m", prevFrameDataDir := "NONE",
    outputDataDir := "o", saveDebugImages := false, saveFlowDataForNextFrame := false,
    flowAlgName := "pixflow", alphaFeatherSize := 0, cam1 := camA, cam2 := camB }

/-- Every read succeeds with a 1×1 image; the engine returns a zero field. -/
def envOk : Env :=
  { readImage := fun _ => some (constImg 1 1 7)
    readFlow := fun _ => some (flowConst 1 1 0)
    computeFlow := fun _ _ _ _ _ => flowConst 1 1 0
    sampler := fun _ img _ => img.px 0 0
    buildColorModel := fun _ _ => []
    applyColorModel := fun img _ => img }

/-- Like `envOk` but the secondary bottom image is 2×2 while everything
else is 1×1: the two working images have mismatched dimensions. -/
def envMismatch : Env :=
  { envOk with readImage := fun p =>
      if p = "i/b.png" then some (constImg 2 2 7) else some (constImg 1 1 7) }

/-- Every read yields a zero-extent raster: in particular both pole masks
have zero rows and columns. -/
def envZeroMask : Env :=
  { envOk with readImage := fun _ => some (constImg 0 0 7) }

/-- Like `envOk` but the engine returns a field that displaces every pixel
by `(1000, 1000)`, far outside the 1×1 source image. -/
def envFarFlow : Env :=
  { envOk with computeFlow := fun _ _ _ _ _ => flowConst 1 1 1000 }

/-! ## Claims -/

/-- C1: In the compositing loop, for every pixel of the primary's
rectangle, with `a1` the primary's normalized alpha and `a2` the adjusted
secondary's normalized alpha: if `a1 < 1` and `a2 > 0`, the output color
per channel equals `a1·primaryColor + (1−a1)·secondaryColor` (truncated to
a byte by the `Vec4b` constructor) and the output alpha is forced to fully
opaque (255); in every other case the primary pixel is left unchanged. -/
theorem compositing_blend_rule (p s : Img) (y x : Nat)
    (hy : y < p.rows) (hx : x < p.cols) :
    (blendImages p s).px y x =
      if ((p.px y x).a : ℚ) / 255 < 1 ∧ 0 < ((s.px y x).a : ℚ) / 255 then
        { b := (⌊((p.px y x).a : ℚ) / 255 * ((p.px y x).b : ℚ)
                + (1 - ((p.px y x).a : ℚ) / 255) * ((s.px y x).b : ℚ)⌋).toNat
          g := (⌊((p.px y x).a : ℚ) / 255 * ((p.px y x).g : ℚ)
                + (1 - ((p.px y x).a : ℚ) / 255) * ((s.px y x).g : ℚ)⌋).toNat
          r := (⌊((p.px y x).a : ℚ) / 255 * ((p.px y x).r : ℚ)
                + (1 - ((p.px y x).a : ℚ) / 255) * ((s.px y x).r : ℚ)⌋).toNat
          a := 255 }
      else p.px y x := by
  simp only [blendImages, blendPixel]
  rw [if_pos ⟨hy, hx⟩]

/-- Witness for C1 at a concrete pixel: primary `(10,20,30)` at alpha 128,
secondary `(200,100,50)` at alpha 255 blend to `(104,59,39)` at alpha
255. -/
theorem compositing_blend_rule_witness :
    (blendImages { rows := 1, cols := 1, px := fun _ _ => ⟨10, 20, 30, 128⟩ }
        { rows := 1, cols := 1, px := fun _ _ => ⟨200, 100, 50, 255⟩ }).px 0 0 =
      ⟨104, 59, 39, 255⟩ := by
  rw [compositing_blend_rule _ _ 0 0 (by decide) (by decide)]
  norm_num [Pix.mk.injEq]
  decide

/-- The corrective pass of lines 173–176 (circle recut, then refeather)
changes only the alpha channel, and the blend leaves a fully opaque
primary pixel unchanged; so the color channels survive the whole
blend + recut + refeather composition. -/
theorem recutRefeather_preserves_color (p s : Img) (r k y x : Nat)
    (hy : y < p.rows) (hx : x < p.cols) (ha : (p.px y x).a = 255) :
    ((featherAlphaChannel (circleAlphaCut (blendImages p s) r) k).px y x).b = (p.px y x).b ∧
    ((featherAlphaChannel (circleAlphaCut (blendImages p s) r) k).px y x).g = (p.px y x).g ∧
    ((featherAlphaChannel (circleAlphaCut (blendImages p s) r) k).px y x).r = (p.px y x).r := by
  have hblend : (blendImages p s).px y x = p.px y x := by
    simp only [blendImages]
    rw [if_pos ⟨hy, hx⟩]
    simp only [blendPixel, ha]
    norm_num
  simp only [featherAlphaChannel, circleAlphaCut, hblend]
  split <;> simp [hblend]

/-- C5: For every pixel whose primary alpha equals 255 prior to blending,
the combined output's color channels equal the primary working image's own
color channels (the final recut/feather pass may change the alpha, never
the color). -/
theorem opaque_primary_color_unchanged (env : Env) (a : Args) (tr : List Event)
    (res : Result) (hrun : combineBottomImagesWithPoleRemoval env a = (tr, Except.ok res)) (y x : Nat)
    (hy : y < res.workingPrimary.rows) (hx : x < res.workingPrimary.cols)
    (ha : (res.workingPrimary.px y x).a = 255) :
    (res.combined.px y x).b = (res.workingPrimary.px y x).b ∧
    (res.combined.px y x).g = (res.workingPrimary.px y x).g ∧
    (res.combined.px y x).r = (res.workingPrimary.px y x).r := by
  obtain ⟨i1, i2, m1, m2, pf, pi1, pi2, h1, h2, h3, h4, hm, hr, hc, hprev, hres, htr⟩ :=
    combine_ok_inv env a tr res hrun
  subst hres
  simp only [fullResult_workingPrimary, fullResult_combined] at hy hx ha ⊢
  exact recutRefeather_preserves_color _ _ _ _ y x hy hx ha

/-- Every read yields a 1×1 image whose channels are all zero; the pole
mask then excludes nothing (red channel 0), so the working primary stays
fully opaque. -/
def envAllZero : Env :=
  { envOk with readImage := fun _ => some (constImg 1 1 0) }

/-- Witness for C5 on a concrete successful run with a fully opaque
primary pixel. -/
theorem opaque_primary_color_unchanged_witness :
    ((okResultOf envAllZero argsBase).combined.px 0 0).b
        = ((okResultOf envAllZero argsBase).workingPrimary.px 0 0).b ∧
    ((okResultOf envAllZero argsBase).combined.px 0 0).g
        = ((okResultOf envAllZero argsBase).workingPrimary.px 0 0).g ∧
    ((okResultOf envAllZero argsBase).combined.px 0 0).r
        = ((okResultOf envAllZero argsBase).workingPrimary.px 0 0).r :=
  opaque_primary_color_unchanged envAllZero argsBase (traceOf envAllZero argsBase)
    (okResultOf envAllZero argsBase) rfl 0 0 (by decide) (by decide) (by decide)

/-- C7: On every successful run, for every destination pixel `(x, y)` the
warp coordinate is `(x + field.dx(y,x), y + field.dy(y,x))`; the secondary
working image is sampled there with the cubic interpolator whenever the
coordinate lies inside the image bounds, and every out-of-bounds sample is
the fixed fully transparent constant — for any sampler whatsoever, so
never wrapped around nor clamped to the edge. -/
theorem warp_cubic_constant_border (env : Env) (a : Args) (tr : List Event)
    (res : Result) (hrun : combineBottomImagesWithPoleRemoval env a = (tr, Except.ok res)) (y x : Nat) :
    res.warped.px y x =
      if 0 ≤ (x : ℚ) + res.flow.dx y x
          ∧ (x : ℚ) + res.flow.dx y x ≤ (res.workingSecondary.cols : ℚ) - 1
          ∧ 0 ≤ (y : ℚ) + res.flow.dy y x
          ∧ (y : ℚ) + res.flow.dy y x ≤ (res.workingSecondary.rows : ℚ) - 1
      then env.sampler Interp.cubic res.workingSecondary
            ((x : ℚ) + res.flow.dx y x, (y : ℚ) + res.flow.dy y x)
      else transparentPix := by
  obtain ⟨i1, i2, m1, m2, pf, pi1, pi2, h1, h2, h3, h4, hm, hr, hc, hprev, hres, htr⟩ :=
    combine_ok_inv env a tr res hrun
  subst hres
  simp only [fullResult_warped, fullResult_flow, fullResult_workingSecondary,
    remapModel, buildWarpMap]

/-- Witness for C7: a field displacing every pixel by `(1000, 1000)` sends
the only destination pixel of a 1×1 image out of bounds, so the warped
pixel is the fully transparent constant. -/
theorem warp_cubic_constant_border_witness :
    (okResultOf envFarFlow argsBase).warped.px 0 0 = transparentPix := by
  rw [warp_cubic_constant_border envFarFlow argsBase (traceOf envFarFlow argsBase)
    (okResultOf envFarFlow argsBase) rfl 0 0]
  have hdx : (okResultOf envFarFlow argsBase).flow.dx 0 0 = 1000 := rfl
  have hdy : (okResultOf envFarFlow argsBase).flow.dy 0 0 = 1000 := rfl
  have hc : (okResultOf envFarFlow argsBase).workingSecondary.cols = 1 := rfl
  rw [hdx, hdy, hc]
  norm_num

/-- Membership in a conditional segment of a trace. -/
theorem mem_ite_nil {e : Event} {c : Prop} [Decidable c] {l : List Event} :
    (e ∈ if c then l else []) ↔ c ∧ e ∈ l := by
  split
  · rename_i h
    simp [h]
  · rename_i h
    simp [h]

/-- C8: On every successful run the engine is called on the two working
images with exactly the recorded priors; when a previous-frame cache
directory is supplied (`prevFrameDataDir ≠ "NONE"`) the priors are the
cache entry's motion field and two previous working images, and when none
is supplied the engine receives the empty priors (`none` models the
zero-sized `cv::Mat()`), i.e. unseeded estimation. -/
theorem temporal_seed_priors (env : Env) (a : Args) (tr : List Event)
    (res : Result) (hrun : combineBottomImagesWithPoleRemoval env a = (tr, Except.ok res)) :
    res.flow = env.computeFlow res.workingPrimary res.workingSecondary
      res.priorFlow res.priorImage res.priorImage2 ∧
    (a.prevFrameDataDir = "NONE" →
      res.priorFlow = none ∧ res.priorImage = none ∧ res.priorImage2 = none) ∧
    (a.prevFrameDataDir ≠ "NONE" →
      res.priorFlow = env.readFlow (prevFlowPath a) ∧ res.priorFlow.isSome = true ∧
      res.priorImage = env.readImage (prevImgPath1 a) ∧ res.priorImage.isSome = true ∧
      res.priorImage2 = env.readImage (prevImgPath2 a) ∧ res.priorImage2.isSome = true) := by
  obtain ⟨i1, i2, m1, m2, pf, pi1, pi2, h1, h2, h3, h4, hm, hr, hc, hprev, hres, htr⟩ :=
    combine_ok_inv env a tr res hrun
  subst hres
  simp only [fullResult_flow, fullResult_workingPrimary, fullResult_workingSecondary,
    fullResult_priorFlow, fullResult_priorImage, fullResult_priorImage2]
  refine ⟨trivial, ?_, ?_⟩
  · intro hN
    rcases hprev with ⟨_, hpf, hpi1, hpi2⟩ | ⟨hne, _⟩
    · exact ⟨hpf, hpi1, hpi2⟩
    · exact absurd hN hne
  · intro hne
    rcases hprev with ⟨hN, _⟩ | ⟨_, hf, hfs, hi1, hi1s, hi2, hi2s⟩
    · exact absurd hN hne
    · exact ⟨hf.symm, hfs, hi1.symm, hi1s, hi2.symm, hi2s⟩

/-- Witness for C8: with the `"NONE"` sentinel the engine receives empty
priors. -/
theorem temporal_seed_priors_witness :
    (okResultOf envOk argsBase).priorFlow = none ∧
    (okResultOf envOk argsBase).priorImage = none ∧
    (okResultOf envOk argsBase).priorImage2 = none :=
  (temporal_seed_priors envOk argsBase (traceOf envOk argsBase)
    (okResultOf envOk argsBase) rfl).2.1 rfl

/-- C9: After the per-pixel blend loop, exactly one additional mandatory
pass re-applies the usable-radius circular alpha cutout and re-feathers
the combined alpha; the only step that may follow it is the optional final
debug snapshot, no second blending round is performed (the blend loop
occurs nowhere before that pass either — it runs exactly once), and the
combined result is exactly recut-then-refeather of the blended image. -/
theorem recut_refeather_after_blend (env : Env) (a : Args) (tr : List Event)
    (res : Result) (hrun : combineBottomImagesWithPoleRemoval env a = (tr, Except.ok res)) :
    (∃ pre, tr = pre ++ ([Event.blendLoop, Event.circleCut 1, Event.feather 1]
        ++ (if a.saveDebugImages then [Event.writeDebugCombined (debugCombinedPath a)] else []))
      ∧ Event.blendLoop ∉ pre) ∧
    res.combined = featherAlphaChannel
      (circleAlphaCut (blendImages res.workingPrimary res.adjusted)
        a.cam1.usablePixelsRadius)
      a.alphaFeatherSize := by
  obtain ⟨i1, i2, m1, m2, pf, pi1, pi2, h1, h2, h3, h4, hm, hr, hc, hprev, hres, htr⟩ :=
    combine_ok_inv env a tr res hrun
  subst hres
  refine ⟨⟨readTrace a ++ maskTrace a
    ++ (if pf.isSome then
          [Event.readPrevFlow (prevFlowPath a),
           Event.readPrevImage (prevImgPath1 a),
           Event.readPrevImage (prevImgPath2 a)]
        else [])
    ++ ([Event.computeFlow pf.isSome]
      ++ (if a.saveFlowDataForNextFrame then
            [Event.saveFlow (outFlowPath a),
             Event.writeFlowImage (outImgPath1 a),
             Event.writeFlowImage (outImgPath2 a)]
          else [])
      ++ [Event.buildWarp, Event.remap]
      ++ (if a.saveDebugImages then
            [Event.writeDebug (debugBottomPath a),
             Event.writeDebug (debugBottom2Path a),
             Event.writeDebug (debugWarpPath a)]
          else [])
      ++ [Event.buildColorModel, Event.applyColorModel]), ?_, ?_⟩, rfl⟩
  · rw [htr]
    simp [successTrace, postTrace, readTrace, List.append_assoc]
  · simp [readTrace, maskTrace, mem_ite_nil]

/-- Witness for C9 on a concrete successful run: the combined image is the
recut-and-refeathered blend. -/
theorem recut_refeather_after_blend_witness :
    (okResultOf envOk argsBase).combined = featherAlphaChannel
      (circleAlphaCut (blendImages (okResultOf envOk argsBase).workingPrimary
        (okResultOf envOk argsBase).adjusted) argsBase.cam1.usablePixelsRadius)
      argsBase.alphaFeatherSize :=
  (recut_refeather_after_blend envOk argsBase (traceOf envOk argsBase)
    (okResultOf envOk argsBase) rfl).2

/-- C6: If either pole mask is absent (its read throws) or has zero extent
(zero rows or zero columns), the call aborts with the mask error, and this
happens before any pixel arithmetic: every event of the trace is a file
read, none is a pixel operation (no alpha-channel, circle-cut, mask-cut,
feather, flip, flow, warp, color or blend step ever runs). -/
theorem missing_pole_mask_aborts (env : Env) (a : Args) (img1 img2 : Img)
    (h1 : env.readImage (imgPath1 a) = some img1)
    (h2 : env.readImage (imgPath2 a) = some img2)
    (hbad : ∀ mask1 mask2, env.readImage (maskPath1 a) = some mask1 →
        env.readImage (maskPath2 a) = some mask2 →
        mask1.rows = 0 ∨ mask1.cols = 0 ∨ mask2.rows = 0 ∨ mask2.cols = 0) :
    failed (combineBottomImagesWithPoleRemoval env a).2 = true ∧
    ((combineBottomImagesWithPoleRemoval env a).1.all fun e => !e.isPixelOp) = true := by
  unfold combineBottomImagesWithPoleRemoval
  simp only [h1, h2]
  cases h3 : env.readImage (maskPath1 a) with
  | none => simp [failed, Event.isPixelOp]
  | some mask1 =>
    cases h4 : env.readImage (maskPath2 a) with
    | none => simp [failed, Event.isPixelOp]
    | some mask2 =>
      dsimp only
      rw [if_pos (hbad mask1 mask2 h3 h4)]
      simp [failed, Event.isPixelOp]

/-- Witness for C6: both pole masks read as zero-extent rasters; the run
fails and performs no pixel operation. -/
theorem missing_pole_mask_aborts_witness :
    failed (combineBottomImagesWithPoleRemoval envZeroMask argsBase).2 = true ∧
    ((combineBottomImagesWithPoleRemoval envZeroMask argsBase).1.all fun e => !e.isPixelOp) = true :=
  missing_pole_mask_aborts envZeroMask argsBase (constImg 0 0 7) (constImg 0 0 7)
    rfl rfl (fun mask1 mask2 hm1 _ => by
      have : mask1 = constImg 0 0 7 := by
        have := hm1.symm.trans (rfl : envZeroMask.readImage (maskPath1 argsBase) = some (constImg 0 0 7))
        exact (Option.some.injEq _ _ ▸ this : _)
      subst this
      exact Or.inl rfl)

/-- C10: The "no previous frame" sentinel is exactly the literal string
`"NONE"`: for every other `prevFrameDataDir` value (the empty string
included) the function attempts to read the previous-frame flow file and
then both previous working images — an unreadable one aborts the whole
call — while the literal `"NONE"` performs no previous-frame read at
all. -/
theorem none_sentinel_verbatim (env : Env) (a : Args) (img1 img2 mask1 mask2 : Img)
    (h1 : env.readImage (imgPath1 a) = some img1)
    (h2 : env.readImage (imgPath2 a) = some img2)
    (h3 : env.readImage (maskPath1 a) = some mask1)
    (h4 : env.readImage (maskPath2 a) = some mask2)
    (hm : ¬(mask1.rows = 0 ∨ mask1.cols = 0 ∨ mask2.rows = 0 ∨ mask2.cols = 0)) :
    (a.prevFrameDataDir ≠ "NONE" →
      Event.readPrevFlow (prevFlowPath a) ∈ (combineBottomImagesWithPoleRemoval env a).1 ∧
      (env.readFlow (prevFlowPath a) = none → failed (combineBottomImagesWithPoleRemoval env a).2 = true) ∧
      (∀ pfv, env.readFlow (prevFlowPath a) = some pfv →
        Event.readPrevImage (prevImgPath1 a) ∈ (combineBottomImagesWithPoleRemoval env a).1 ∧
        (env.readImage (prevImgPath1 a) = none → failed (combineBottomImagesWithPoleRemoval env a).2 = true) ∧
        (∀ q1, env.readImage (prevImgPath1 a) = some q1 →
          Event.readPrevImage (prevImgPath2 a) ∈ (combineBottomImagesWithPoleRemoval env a).1 ∧
          (env.readImage (prevImgPath2 a) = none → failed (combineBottomImagesWithPoleRemoval env a).2 = true)))) ∧
    (a.prevFrameDataDir = "NONE" →
      (∀ s, Event.readPrevFlow s ∉ (combineBottomImagesWithPoleRemoval env a).1) ∧
      (∀ s, Event.readPrevImage s ∉ (combineBottomImagesWithPoleRemoval env a).1)) := by
  unfold combineBottomImagesWithPoleRemoval
  simp only [h1, h2, h3, h4]
  rw [if_neg hm]
  constructor
  · intro hne
    rw [if_neg hne]
    cases hf : env.readFlow (prevFlowPath a) with
    | none => simp [failed, maskTrace, mem_ite_nil]
    | some pfv =>
      cases hq1 : env.readImage (prevImgPath1 a) with
      | none => simp [failed, maskTrace, mem_ite_nil]
      | some q1 =>
        cases hq2 : env.readImage (prevImgPath2 a) with
        | none => simp [failed, maskTrace, mem_ite_nil]
        | some q2 =>
          dsimp only
          unfold runAfterPriors
          by_cases hsz : (workingPrimaryOf a img1 mask1).rows = (workingSecondaryOf a img2 mask2).rows ∧
              (workingPrimaryOf a img1 mask1).cols = (workingSecondaryOf a img2 mask2).cols
          · rw [if_pos hsz]
            simp [maskTrace, mem_ite_nil]
          · rw [if_neg hsz]
            simp [maskTrace, mem_ite_nil]
  · intro hN
    rw [if_pos hN]
    unfold runAfterPriors
    by_cases hsz : (workingPrimaryOf a img1 mask1).rows = (workingSecondaryOf a img2 mask2).rows ∧
        (workingPrimaryOf a img1 mask1).cols = (workingSecondaryOf a img2 mask2).cols
    · rw [if_pos hsz]
      constructor <;> intro s <;> simp [maskTrace, mem_ite_nil]
    · rw [if_neg hsz]
      constructor <;> intro s <;> simp [maskTrace, mem_ite_nil]

/-- Arguments whose previous-frame directory is the empty string — not the
sentinel, so previous-frame reads are attempted. -/
def argsEmptyPrev : Args := { argsBase with prevFrameDataDir := "" }

/-- Witness for C10: with `prevFrameDataDir = ""` (non-sentinel) the run
attempts the previous-frame flow read, and with `"NONE"` no previous-frame
read occurs. -/
theorem none_sentinel_verbatim_witness :
    (Event.readPrevFlow (prevFlowPath argsEmptyPrev) ∈ (combineBottomImagesWithPoleRemoval envOk argsEmptyPrev).1) ∧
    (∀ s, Event.readPrevFlow s ∉ (combineBottomImagesWithPoleRemoval envOk argsBase).1) :=
  ⟨((none_sentinel_verbatim envOk argsEmptyPrev (constImg 1 1 7) (constImg 1 1 7)
      (constImg 1 1 7) (constImg 1 1 7) rfl rfl rfl rfl (by decide)).1
      (by decide)).1,
   ((none_sentinel_verbatim envOk argsBase (constImg 1 1 7) (constImg 1 1 7)
      (constImg 1 1 7) (constImg 1 1 7) rfl rfl rfl rfl (by decide)).2 rfl).1⟩

/-- Counterexample to C2 as stated: on a run with mismatched
primary/secondary dimensions the call does fail, but the trace of this
failing run contains an engine call — the motion-estimation engine was
invoked, so the dimension check does not happen before the engine is
invoked. -/
theorem size_check_not_before_engine_cex :
    failed (combineBottomImagesWithPoleRemoval envMismatch argsBase).2 = true ∧
    Event.computeFlow false ∈ (combineBottomImagesWithPoleRemoval envMismatch argsBase).1 := by
  decide

/-- C2 amended: mismatched working-image dimensions make the fusion call
fail fatally (the assertion aborts, nothing is retried: the engine runs
exactly once), but the check sits after the motion-estimation engine is
invoked and before warp construction — hence still before color matching
and compositing, none of which ever run. -/
theorem size_mismatch_fatal_after_engine (env : Env) (a : Args)
    (img1 img2 mask1 mask2 : Img)
    (h1 : env.readImage (imgPath1 a) = some img1)
    (h2 : env.readImage (imgPath2 a) = some img2)
    (h3 : env.readImage (maskPath1 a) = some mask1)
    (h4 : env.readImage (maskPath2 a) = some mask2)
    (hm : ¬(mask1.rows = 0 ∨ mask1.cols = 0 ∨ mask2.rows = 0 ∨ mask2.cols = 0))
    (hseed : a.prevFrameDataDir ≠ "NONE" →
      (env.readFlow (prevFlowPath a)).isSome = true ∧
      (env.readImage (prevImgPath1 a)).isSome = true ∧
      (env.readImage (prevImgPath2 a)).isSome = true)
    (hsz : ¬(img1.rows = img2.rows ∧ img1.cols = img2.cols)) :
    failed (combineBottomImagesWithPoleRemoval env a).2 = true ∧
    (combineBottomImagesWithPoleRemoval env a).1.countP Event.isEngineCall = 1 ∧
    Event.buildWarp ∉ (combineBottomImagesWithPoleRemoval env a).1 ∧
    Event.buildColorModel ∉ (combineBottomImagesWithPoleRemoval env a).1 ∧
    Event.blendLoop ∉ (combineBottomImagesWithPoleRemoval env a).1 := by
  unfold combineBottomImagesWithPoleRemoval
  simp only [h1, h2, h3, h4]
  rw [if_neg hm]
  have hsz' : ¬((workingPrimaryOf a img1 mask1).rows = (workingSecondaryOf a img2 mask2).rows ∧
      (workingPrimaryOf a img1 mask1).cols = (workingSecondaryOf a img2 mask2).cols) := by
    simpa using hsz
  by_cases hN : a.prevFrameDataDir = "NONE"
  · rw [if_pos hN]
    unfold runAfterPriors
    rw [if_neg hsz']
    cases h5 : a.cam2.flip180 <;> cases h6 : a.saveFlowDataForNextFrame <;>
      simp [failed, maskTrace, h5, h6, Event.isEngineCall, List.countP_cons, List.countP_append]
  · rw [if_neg hN]
    obtain ⟨hfs, hi1s, hi2s⟩ := hseed hN
    obtain ⟨pfv, hf⟩ := Option.isSome_iff_exists.mp hfs
    obtain ⟨q1, hq1⟩ := Option.isSome_iff_exists.mp hi1s
    obtain ⟨q2, hq2⟩ := Option.isSome_iff_exists.mp hi2s
    simp only [hf, hq1, hq2]
    unfold runAfterPriors
    rw [if_neg hsz']
    cases h5 : a.cam2.flip180 <;> cases h6 : a.saveFlowDataForNextFrame <;>
      simp [failed, maskTrace, h5, h6, Event.isEngineCall, List.countP_cons, List.countP_append]

/-- Witness for the amended C2 at the concrete mismatched run. -/
theorem size_mismatch_fatal_after_engine_witness :
    failed (combineBottomImagesWithPoleRemoval envMismatch argsBase).2 = true ∧
    (combineBottomImagesWithPoleRemoval envMismatch argsBase).1.countP Event.isEngineCall = 1 ∧
    Event.buildWarp ∉ (combineBottomImagesWithPoleRemoval envMismatch argsBase).1 ∧
    Event.buildColorModel ∉ (combineBottomImagesWithPoleRemoval envMismatch argsBase).1 ∧
    Event.blendLoop ∉ (combineBottomImagesWithPoleRemoval envMismatch argsBase).1 :=
  size_mismatch_fatal_after_engine envMismatch argsBase (constImg 1 1 7) (constImg 2 2 7)
    (constImg 1 1 7) (constImg 1 1 7) rfl rfl rfl rfl (by decide)
    (fun h => absurd rfl h) (by decide)

/-- Arguments with the secondary camera marked physically inverted. -/
def argsFlip : Args := { argsBase with cam2 := camBflip }

/-- Counterexample to C3 as stated: with the secondary camera's flip180
flag set the 180° rotation does happen, but after the alpha-mask,
pole-cut and feathering steps, not before them: the rotation is not
everywhere before the secondary's feather step in this run's trace. -/
theorem flip_before_masking_cex :
    Event.flip180 2 ∈ (combineBottomImagesWithPoleRemoval envOk argsFlip).1 ∧
    allBefore Event.isFlipSecondary Event.isFeatherSecondary
      (combineBottomImagesWithPoleRemoval envOk argsFlip).1 = false := by
  decide

/-- C3 amended: only the secondary camera's flip180 flag is honored (the
primary is never flipped), and when it is set the 180° rotation is applied
after the alpha-mask, pole-cut and feather steps and before the engine
call, so the working secondary fed to alignment is the 180° rotation of
its mask-built image. -/
theorem flip_secondary_after_masking (env : Env) (a : Args) (tr : List Event)
    (res : Result) (hrun : combineBottomImagesWithPoleRemoval env a = (tr, Except.ok res)) :
    Event.flip180 1 ∉ tr ∧
    ((Event.flip180 2 ∈ tr) ↔ a.cam2.flip180 = true) ∧
    allBefore Event.isFeatherSecondary Event.isFlipSecondary tr = true ∧
    allBefore Event.isFlipSecondary Event.isEngineCall tr = true ∧
    (a.cam2.flip180 = true → ∃ img2 mask2,
      env.readImage (imgPath2 a) = some img2 ∧
      env.readImage (maskPath2 a) = some mask2 ∧
      res.workingSecondary =
        flipBothAxes (buildMasked img2 a.cam2.usablePixelsRadius mask2 a.alphaFeatherSize)) := by
  obtain ⟨i1, i2, m1, m2, pf, pi1, pi2, h1, h2, h3, h4, hm, hr, hc, hprev, hres, htr⟩ :=
    combine_ok_inv env a tr res hrun
  subst hres
  subst htr
  refine ⟨?_, ?_, ?_, ?_, ?_⟩
  · cases h5 : a.cam2.flip180 <;> cases h6 : a.saveFlowDataForNextFrame <;>
      cases h7 : a.saveDebugImages <;> cases h8 : pf.isSome <;>
      simp [successTrace, readTrace, maskTrace, postTrace, h5, h6, h7, h8]
  · cases h5 : a.cam2.flip180 <;> cases h6 : a.saveFlowDataForNextFrame <;>
      cases h7 : a.saveDebugImages <;> cases h8 : pf.isSome <;>
      simp [successTrace, readTrace, maskTrace, postTrace, h5, h6, h7, h8]
  · cases h5 : a.cam2.flip180 <;> cases h6 : a.saveFlowDataForNextFrame <;>
      cases h7 : a.saveDebugImages <;> cases h8 : pf.isSome <;>
      simp [successTrace, readTrace, maskTrace, postTrace, allBefore,
        Event.isFeatherSecondary, Event.isFlipSecondary, h5, h6, h7, h8]
  · cases h5 : a.cam2.flip180 <;> cases h6 : a.saveFlowDataForNextFrame <;>
      cases h7 : a.saveDebugImages <;> cases h8 : pf.isSome <;>
      simp [successTrace, readTrace, maskTrace, postTrace, allBefore,
        Event.isFlipSecondary, Event.isEngineCall, h5, h6, h7, h8]
  · intro hflip
    exact ⟨i2, m2, h2, h4, by simp [workingSecondaryOf, hflip]⟩

/-- Witness for the amended C3 at the concrete flipped run. -/
theorem flip_secondary_after_masking_witness :
    Event.flip180 1 ∉ traceOf envOk argsFlip ∧
    ((Event.flip180 2 ∈ traceOf envOk argsFlip) ↔ argsFlip.cam2.flip180 = true) ∧
    allBefore Event.isFeatherSecondary Event.isFlipSecondary (traceOf envOk argsFlip) = true ∧
    allBefore Event.isFlipSecondary Event.isEngineCall (traceOf envOk argsFlip) = true ∧
    (argsFlip.cam2.flip180 = true → ∃ img2 mask2,
      envOk.readImage (imgPath2 argsFlip) = some img2 ∧
      envOk.readImage (maskPath2 argsFlip) = some mask2 ∧
      (okResultOf envOk argsFlip).workingSecondary =
        flipBothAxes (buildMasked img2 argsFlip.cam2.usablePixelsRadius mask2
          argsFlip.alphaFeatherSize)) :=
  flip_secondary_after_masking envOk argsFlip (traceOf envOk argsFlip)
    (okResultOf envOk argsFlip) rfl

/-- Arguments with both persistence flags enabled. -/
def argsFlags : Args :=
  { argsBase with saveDebugImages := true, saveFlowDataForNextFrame := true }

/-- Counterexample to C4 as stated: a successful run with both persistence
flags on performs a persisted write (the temporal-seed flow write) before
the blend loop, so it is false that no persisted side-effect write
precedes the completion of the warp, color-matching and compositing
stages. -/
theorem writes_before_result_cex :
    failed (combineBottomImagesWithPoleRemoval envOk argsFlags).2 = false ∧
    allBefore Event.isBlendStep Event.isWrite (combineBottomImagesWithPoleRemoval envOk argsFlags).1 = false := by
  decide

/-- C4 amended: the persisted writes are interleaved with the stages
rather than all postponed past compositing: the temporal-seed writes come
after the engine call and before warp construction; the three debug
snapshots (primary, secondary, warped) come after the warp and before the
color fit; only the final combined snapshot comes after the blend loop. -/
theorem write_ordering (env : Env) (a : Args) (tr : List Event)
    (res : Result) (hrun : combineBottomImagesWithPoleRemoval env a = (tr, Except.ok res)) :
    allBefore Event.isEngineCall Event.isSeedWrite tr = true ∧
    allBefore Event.isSeedWrite Event.isWarpStep tr = true ∧
    allBefore Event.isWarpStep Event.isDebugWrite tr = true ∧
    allBefore Event.isDebugWrite Event.isColorFit tr = true ∧
    allBefore Event.isBlendStep Event.isFinalDebugWrite tr = true := by
  obtain ⟨i1, i2, m1, m2, pf, pi1, pi2, h1, h2, h3, h4, hm, hr, hc, hprev, hres, htr⟩ :=
    combine_ok_inv env a tr res hrun
  subst hres
  subst htr
  refine ⟨?_, ?_, ?_, ?_, ?_⟩ <;>
    (cases h5 : a.cam2.flip180 <;> cases h6 : a.saveFlowDataForNextFrame <;>
      cases h7 : a.saveDebugImages <;> cases h8 : pf.isSome <;>
      simp [successTrace, readTrace, maskTrace, postTrace, allBefore,
        Event.isEngineCall, Event.isSeedWrite, Event.isWarpStep, Event.isDebugWrite,
        Event.isColorFit, Event.isBlendStep, Event.isFinalDebugWrite, h5, h6, h7, h8])

/-- Witness for the amended C4 at the concrete run with both flags on. -/
theorem write_ordering_witness :
    allBefore Event.isEngineCall Event.isSeedWrite (traceOf envOk argsFlags) = true ∧
    allBefore Event.isSeedWrite Event.isWarpStep (traceOf envOk argsFlags) = true ∧
    allBefore Event.isWarpStep Event.isDebugWrite (traceOf envOk argsFlags) = true ∧
    allBefore Event.isDebugWrite Event.isColorFit (traceOf envOk argsFlags) = true ∧
    allBefore Event.isBlendStep Event.isFinalDebugWrite (traceOf envOk argsFlags) = true :=
  write_ordering envOk argsFlags (traceOf envOk argsFlags) (okResultOf envOk argsFlags) rfl

end PoleRemoval
